import Mathlib

/-!
Verification of the food-waste dashboard's query/filter composition layer
(`app.py`): the WHERE-clause composer `add_where`, the per-report clause and
parameter construction, the filter option resolver `get_distinct_values` and
the combined `city_options` list, the fail-soft gateway `run_query`, and the
denominator guard of the percentage-by-status report.

Strings are modelled by Lean `String`; SQL string ordering (`ORDER BY` on text
and Python `sorted`) is modelled by byte-lexicographic comparison on the
character lists, which coincides with both for the ASCII data at hand.
-/

namespace FoodWaste

/-- Byte-lexicographic "less or equal" on character lists: the ordering used
by SQLite `ORDER BY` on text and by Python `sorted` over ASCII strings. -/
def charListLe : List Char → List Char → Bool
  | [], _ => true
  | _ :: _, [] => false
  | a :: as, b :: bs =>
    if a.toNat < b.toNat then true
    else if b.toNat < a.toNat then false
    else charListLe as bs

/-- Strict byte-lexicographic "less than" on character lists. -/
def charListLt : List Char → List Char → Bool
  | [], [] => false
  | [], _ :: _ => true
  | _ :: _, [] => false
  | a :: as, b :: bs =>
    if a.toNat < b.toNat then true
    else if b.toNat < a.toNat then false
    else charListLt as bs

/-- Lexicographic order on strings, via their character lists. -/
def strLe (a b : String) : Prop := charListLe a.data b.data = true

/-- Strict lexicographic order on strings. -/
def strLt (a b : String) : Prop := charListLt a.data b.data = true

instance : DecidableRel strLe := fun _ _ => instDecidableEqBool _ _

instance : DecidableRel strLt := fun _ _ => instDecidableEqBool _ _

/-- ascending sort of a list of strings (Python `sorted` / SQL `ORDER BY`). -/
def sortStr (l : List String) : List String := List.insertionSort strLe l

/-- `add_where` from `app.py`: drop falsy entries (Python `None` or the empty
string), join the survivors with " AND " and put " WHERE " in front when any
survive, otherwise give the empty string. -/
def add_where (clauses : List (Option String)) : String :=
  let cs := (clauses.filterMap id).filter (fun c => c ≠ "")
  if cs = [] then "" else " WHERE " ++ String.intercalate " AND " cs

/-- The Python pattern `tuple([p for p, cond in conds if cond])` used to build
every report's parameter tuple. -/
def active_params (conds : List (String × Bool)) : List String :=
  (conds.filter (fun p => p.2)).map (fun p => p.1)

/-- `where` for query 1 (top cities by providers), from `app.py`. -/
def query1_where (city_filter provider_type_filter : String) : String :=
  add_where
    [ if city_filter = "All" then none else some "City = ?",
      if provider_type_filter = "All" then none else some "Type = ?" ]

/-- `params` for query 1, from `app.py`. -/
def query1_params (city_filter provider_type_filter : String) : List String :=
  active_params
    [ (city_filter, city_filter != "All"),
      (provider_type_filter, provider_type_filter != "All") ]

/-- `where` for query 2 (provider type contributions), from `app.py`. -/
def query2_where (city_filter : String) : String :=
  add_where [ if city_filter = "All" then none else some "City = ?" ]

/-- `params` for query 2, from `app.py`. -/
def query2_params (city_filter : String) : List String :=
  active_params [ (city_filter, city_filter != "All") ]

/-- `where` for query 7 (most common food types), from `app.py`. -/
def query7_where (city_filter meal_type_filter : String) : String :=
  add_where
    [ if city_filter = "All" then none else some "Location = ?",
      if meal_type_filter = "All" then none else some "Meal_Type = ?" ]

/-- `params` for query 7, from `app.py`. -/
def query7_params (city_filter meal_type_filter : String) : List String :=
  active_params
    [ (city_filter, city_filter != "All"),
      (meal_type_filter, meal_type_filter != "All") ]

/-- `where` for query 10 (percentage of claims by status), from `app.py`. -/
def query10_where (status_filter : String) : String :=
  add_where [ if status_filter = "All" then none else some "Status = ?" ]

/-- `params` for query 10, from `app.py`. -/
def query10_params (status_filter : String) : List String :=
  active_params [ (status_filter, status_filter != "All") ]

/-- `where` for query 12 (most claimed meal type), from `app.py`. -/
def query12_where (meal_type_filter : String) : String :=
  add_where [ if meal_type_filter = "All" then none else some "f.Meal_Type = ?" ]

/-- `params` for query 12, from `app.py`. -/
def query12_params (meal_type_filter : String) : List String :=
  active_params [ (meal_type_filter, meal_type_filter != "All") ]

/-- `where` for query 14 (top locations by completed claims), from `app.py`. -/
def query14_where (city_filter : String) : String :=
  add_where [ if city_filter = "All" then none else some "f.Location = ?" ]

/-- `params` for query 14, from `app.py`. -/
def query14_params (city_filter : String) : List String :=
  active_params [ (city_filter, city_filter != "All") ]

/-- The WHERE line of query 14: the hardcoded completed-status predicate,
followed by the composed fragment with its leading " WHERE " (7 characters)
stripped and re-joined with "AND", exactly as the f-string in `app.py`
(`"WHERE c.Status = 'Completed'" + (" AND " + where[7:] if where else "")`). -/
def query14_where_clause (city_filter : String) : String :=
  "WHERE c.Status = \x27Completed\x27" ++
    (if query14_where city_filter ≠ "" then
      " AND " ++ (query14_where city_filter).drop 7
    else "")

/-- Fragment/value pairs of query 1's two optional conditions, in source
order; a condition is active exactly when its value is not "All". -/
def conds_query1 (city_filter provider_type_filter : String) :
    List (String × String) :=
  [("City = ?", city_filter), ("Type = ?", provider_type_filter)]

/-- Fragment/value pairs of query 7's two optional conditions, in source
order. -/
def conds_query7 (city_filter meal_type_filter : String) :
    List (String × String) :=
  [("Location = ?", city_filter), ("Meal_Type = ?", meal_type_filter)]

/-- The conditions that survive filtering: exactly those whose selected value
is not the "All" sentinel, kept in their original order. -/
def surviving (conds : List (String × String)) : List (String × String) :=
  conds.filter (fun p => p.2 != "All")

/-- A pandas-style tabular result: column names plus rows of cells. -/
structure DataFrame where
  cols : List String
  rows : List (List String)
deriving DecidableEq

/-- The empty `pd.DataFrame()` returned by `run_query` on failure: zero rows,
no columns. -/
def emptyDF : DataFrame := ⟨[], []⟩

/-- The relational store as seen by the distinct-value queries: for a table
name and column name, `none` when the table or column does not exist (the
query raises), otherwise the list of stored column values with SQL NULLs as
`none`. -/
def Store : Type := String → String → Option (List (Option String))

/-- Result of `SELECT DISTINCT col AS v FROM t WHERE col IS NOT NULL ORDER BY 1`:
the non-null values, deduplicated and sorted ascending. -/
def sqlDistinct (vals : List (Option String)) : List String :=
  sortStr (vals.filterMap id).dedup

/-- `pd.read_sql_query` on the distinct-value statement: an error when the
table or column is absent, otherwise a one-column DataFrame named "v". -/
def read_distinct_df (store : Store) (table column : String) :
    Except String DataFrame :=
  match store table column with
  | none => Except.error "no such table or column"
  | some vals => Except.ok ⟨ ["v"], (sqlDistinct vals).map (fun v => [v])⟩

/-- `run_query` from `app.py`: return the DataFrame on success; on any
failure surface a warning (out of scope here) and return an empty DataFrame
instead of raising. -/
def run_query (outcome : Except String DataFrame) : DataFrame :=
  match outcome with
  | Except.ok df => df
  | Except.error _ => emptyDF

/-- Column access `df[c]`: `none` models the `KeyError` raised when the
column is absent (as on the empty DataFrame), otherwise the column cells. -/
def DataFrame.getCol (df : DataFrame) (c : String) : Option (List String) :=
  match df.cols.findIdx? (fun x => x == c) with
  | none => none
  | some i => some (df.rows.filterMap (fun r => r.get? i))

/-- `get_distinct_values` from `app.py`: run the distinct query; on any
failure (the `KeyError` from `df["v"]` on the empty frame is caught by the
surrounding `except`) give `["All"]`, otherwise "All" followed by the
values. -/
def get_distinct_values (store : Store) (table column : String) : List String :=
  match (run_query (read_distinct_df store table column)).getCol "v" with
  | none => ["All"]
  | some vs => "All" :: vs

/-- `city_options` from `app.py`:
`sorted(list(set(get_distinct_values("providers","City") + get_distinct_values("food_listings","Location"))))`. -/
def city_options (store : Store) : List String :=
  sortStr ((get_distinct_values store "providers" "City" ++
    get_distinct_values store "food_listings" "Location").dedup)

/-- A store with providers in Austin and Reno and listings located in Reno
and Boise (the worked example of the spec), empty elsewhere. -/
def exampleStore : Store := fun table column =>
  if table = "providers" ∧ column = "City" then
    some [some "Austin", some "Reno"]
  else if table = "food_listings" ∧ column = "Location" then
    some [some "Reno", some "Boise"]
  else none

/-- A store whose only data is one provider city "Aberdeen", a name that
sorts before "All". -/
def aberdeenStore : Store := fun table column =>
  if table = "providers" ∧ column = "City" then some [some "Aberdeen"]
  else none

/-- A store with no tables at all: every lookup fails. -/
def failStore : Store := fun _ _ => none

/-- `total` in the percentage-by-status report:
`int(total_df["total"].iloc[0]) if not total_df.empty else 0`, with the
count result modelled as `none` when the total query failed (empty frame). -/
def query10_total_value (total_df : Option Nat) : Nat :=
  match total_df with
  | some c => c
  | none => 0

/-- The denominator `max(total, 1)` interpolated into query 10. -/
def query10_denominator (total_df : Option Nat) : Nat :=
  max (query10_total_value total_df) 1

/-- Number of `?` placeholders in a query string. -/
def countQ (s : String) : Nat := s.data.count '?'

/-- The full SQL text of query 1, as assembled by the f-string in `app.py`. -/
def query1_sql (city_filter provider_type_filter : String) : String :=
  "\nSELECT City, COUNT(*) AS provider_count\nFROM providers\n" ++
    query1_where city_filter provider_type_filter ++
    "\nGROUP BY City\nORDER BY provider_count DESC\nLIMIT 10;\n"

/-- The full SQL text of query 2. -/
def query2_sql (city_filter : String) : String :=
  "\nSELECT Type, COUNT(*) AS count\nFROM providers\n" ++
    query2_where city_filter ++ "\nGROUP BY Type\nORDER BY count DESC;\n"

/-- The full SQL text of query 7. -/
def query7_sql (city_filter meal_type_filter : String) : String :=
  "\nSELECT Food_Type, COUNT(*) AS type_count\nFROM food_listings\n" ++
    query7_where city_filter meal_type_filter ++
    "\nGROUP BY Food_Type\nORDER BY type_count DESC;\n"

/-- The full SQL text of the query-10 total count. -/
def query10_total_sql (status_filter : String) : String :=
  "SELECT COUNT(*) AS total FROM claims" ++ query10_where status_filter ++ ";"

/-- The full SQL text of query 10; the denominator `max(total,1)` is written
in decimal by the f-string. -/
def query10_sql (status_filter : String) (total : Nat) : String :=
  "\nSELECT Status,\n       COUNT(*) * 100.0 / " ++ Nat.repr (max total 1) ++
    " AS percentage\nFROM claims\n" ++ query10_where status_filter ++
    "\nGROUP BY Status;\n"

/-- The full SQL text of query 12. -/
def query12_sql (meal_type_filter : String) : String :=
  "\nSELECT f.Meal_Type, COUNT(c.Claim_ID) AS claims_count\nFROM food_listings f\nJOIN claims c ON f.Food_ID = c.Food_ID\n" ++
    query12_where meal_type_filter ++
    "\nGROUP BY f.Meal_Type\nORDER BY claims_count DESC;\n"

/-- The full SQL text of query 14. -/
def query14_sql (city_filter : String) : String :=
  "\nSELECT f.Location, COUNT(c.Claim_ID) AS completed_claims\nFROM food_listings f\nJOIN claims c ON f.Food_ID = c.Food_ID\n" ++
    query14_where_clause city_filter ++
    "\nGROUP BY f.Location\nORDER BY completed_claims DESC\nLIMIT 5;\n"

/-- The fixed SQL text of query 4 (receivers with most claims). -/
def query4_sql : String :=
  "\nSELECT r.Name, COUNT(c.Claim_ID) AS claims_count\nFROM receivers r\nJOIN claims c ON r.Receiver_ID = c.Receiver_ID\nGROUP BY r.Name\nORDER BY claims_count DESC\nLIMIT 10;\n"

/-- The fixed SQL text of query 8 (claims per food item). -/
def query8_sql : String :=
  "\nSELECT f.Food_Name, COUNT(c.Claim_ID) AS claims_count\nFROM food_listings f\nJOIN claims c ON f.Food_ID = c.Food_ID\nGROUP BY f.Food_Name\nORDER BY claims_count DESC\nLIMIT 15;\n"

/-- The fixed SQL text of query 13 (total quantity donated by provider). -/
def query13_sql : String :=
  "\nSELECT p.Name, SUM(f.Quantity) AS total_donated\nFROM providers p\nJOIN food_listings f ON p.Provider_ID = f.Provider_ID\nGROUP BY p.Name\nORDER BY total_donated DESC\nLIMIT 15;\n"

/-- One row of the `providers` table, restricted to the columns query 1
touches (`City` and `Type`; the latter is a reserved word in Lean, hence
`ptype`). -/
structure ProviderRow where
  City : String
  ptype : String

/-- Descending order on grouped count rows: `ORDER BY provider_count DESC`. -/
def countGE (a b : String × Nat) : Prop := b.2 ≤ a.2

instance : DecidableRel countGE := fun a b => Nat.decLe b.2 a.2

instance : IsTotal (String × Nat) countGE := ⟨fun a b => Nat.le_total b.2 a.2⟩

instance : IsTrans (String × Nat) countGE :=
  ⟨fun _ _ _ h1 h2 => Nat.le_trans h2 h1⟩

/-- The `providers` rows admitted by query 1's composed WHERE clause: a
present `City = ?` (resp. `Type = ?`) condition keeps rows matching the bound
value, an absent one (selection "All") keeps everything. -/
def query1_filtered (providers : List ProviderRow)
    (city_filter provider_type_filter : String) : List ProviderRow :=
  providers.filter (fun r =>
    (city_filter == "All" || r.City == city_filter) &&
    (provider_type_filter == "All" || r.ptype == provider_type_filter))

/-- `GROUP BY City` with `COUNT(*)` over the admitted rows. -/
def query1_grouped (providers : List ProviderRow)
    (city_filter provider_type_filter : String) : List (String × Nat) :=
  ((query1_filtered providers city_filter provider_type_filter).map
      (fun r => r.City)).dedup.map
    (fun c => (c, ((query1_filtered providers city_filter provider_type_filter).filter
      (fun r => r.City == c)).length))

/-- SQL semantics of query 1 over the `providers` table: group, order by the
count descending (`ORDER BY provider_count DESC`), keep 10 rows (`LIMIT 10`). -/
def query1_rows (providers : List ProviderRow)
    (city_filter provider_type_filter : String) : List (String × Nat) :=
  (List.insertionSort countGE
    (query1_grouped providers city_filter provider_type_filter)).take 10

/-! Helper lemmas about the lexicographic order. -/

theorem char_toNat_inj {a b : Char} (h : a.toNat = b.toNat) : a = b :=
  Char.eq_of_val_eq (UInt32.toNat.inj h)

theorem charListLe_cons (a b : Char) (as bs : List Char) :
    charListLe (a :: as) (b :: bs) = true ↔
      a.toNat < b.toNat ∨ (a.toNat = b.toNat ∧ charListLe as bs = true) := by
  simp only [charListLe]
  by_cases h1 : a.toNat < b.toNat
  · simp [h1]
  · by_cases h2 : b.toNat < a.toNat
    · simp only [if_neg h1, if_pos h2]
      constructor
      · intro h; cases h
      · rintro (h | ⟨h, _⟩) <;> omega
    · have h3 : a.toNat = b.toNat := by omega
      simp [h1, h2, h3]

theorem charListLt_cons (a b : Char) (as bs : List Char) :
    charListLt (a :: as) (b :: bs) = true ↔
      a.toNat < b.toNat ∨ (a.toNat = b.toNat ∧ charListLt as bs = true) := by
  simp only [charListLt]
  by_cases h1 : a.toNat < b.toNat
  · simp [h1]
  · by_cases h2 : b.toNat < a.toNat
    · simp only [if_neg h1, if_pos h2]
      constructor
      · intro h; cases h
      · rintro (h | ⟨h, _⟩) <;> omega
    · have h3 : a.toNat = b.toNat := by omega
      simp [h1, h2, h3]

theorem charListLe_total : ∀ as bs : List Char,
    charListLe as bs = true ∨ charListLe bs as = true
  | [], _ => Or.inl rfl
  | _ :: _, [] => Or.inr rfl
  | a :: as, b :: bs => by
    rw [charListLe_cons, charListLe_cons]
    rcases Nat.lt_trichotomy a.toNat b.toNat with h | h | h
    · exact Or.inl (Or.inl h)
    · rcases charListLe_total as bs with hr | hr
      · exact Or.inl (Or.inr ⟨h, hr⟩)
      · exact Or.inr (Or.inr ⟨h.symm, hr⟩)
    · exact Or.inr (Or.inl h)

theorem charListLe_trans : ∀ as bs cs : List Char,
    charListLe as bs = true → charListLe bs cs = true → charListLe as cs = true
  | [], _, _ => fun _ _ => rfl
  | _ :: _, [], _ => fun h _ => by cases h
  | _ :: _, _ :: _, [] => fun _ h => by cases h
  | a :: as, b :: bs, c :: cs => fun h1 h2 => by
    rw [charListLe_cons] at h1 h2 ⊢
    rcases h1 with h1 | ⟨h1, hr1⟩ <;> rcases h2 with h2 | ⟨h2, hr2⟩
    · exact Or.inl (by omega)
    · exact Or.inl (by omega)
    · exact Or.inl (by omega)
    · exact Or.inr ⟨by omega, charListLe_trans as bs cs hr1 hr2⟩

theorem charListLt_of_le_of_ne : ∀ as bs : List Char,
    charListLe as bs = true → as ≠ bs → charListLt as bs = true
  | [], [] => fun _ h => absurd rfl h
  | [], _ :: _ => fun _ _ => rfl
  | _ :: _, [] => fun h _ => by cases h
  | a :: as, b :: bs => fun hle hne => by
    rw [charListLe_cons] at hle
    rw [charListLt_cons]
    rcases hle with h | ⟨h, hr⟩
    · exact Or.inl h
    · have hab : a = b := char_toNat_inj h
      refine Or.inr ⟨h, charListLt_of_le_of_ne as bs hr (fun hEq => hne ?_)⟩
      rw [hab, hEq]

instance : IsTotal String strLe := ⟨fun a b => charListLe_total a.data b.data⟩

instance : IsTrans String strLe :=
  ⟨fun a b c h1 h2 => charListLe_trans a.data b.data c.data h1 h2⟩

theorem strLt_of_strLe_of_ne {a b : String} (h1 : strLe a b) (h2 : a ≠ b) :
    strLt a b :=
  charListLt_of_le_of_ne a.data b.data h1
    (fun hd => h2 (by cases a; cases b; exact congrArg String.mk hd))

/-- Sorting a deduplicated string list gives a strictly ascending list. -/
theorem sorted_sortStr_dedup (l : List String) :
    List.Sorted strLt (sortStr l.dedup) := by
  have hs : List.Sorted strLe (sortStr l.dedup) :=
    List.sorted_insertionSort strLe l.dedup
  have hn : (sortStr l.dedup).Nodup :=
    ((List.perm_insertionSort strLe l.dedup).nodup_iff).mpr (List.nodup_dedup l)
  exact (hs.and hn).imp (fun h => strLt_of_strLe_of_ne h.1 h.2)

theorem mem_sortStr (x : String) (l : List String) : x ∈ sortStr l ↔ x ∈ l := by
  simp [sortStr]

/-! Helper lemmas about the resolver model. -/

theorem filterMap_get_zero (l : List String) :
    (l.map (fun v => [v])).filterMap (fun r => r.get? 0) = l := by
  induction l with
  | nil => rfl
  | cons x xs ih =>
    rw [List.map_cons, List.filterMap_cons]
    simpa using ih

theorem getCol_v (l : List String) :
    DataFrame.getCol ⟨ ["v"], l.map (fun v => [v])⟩ "v" = some l := by
  have h : List.findIdx? (fun x => x == "v") ["v"] = some 0 := by decide
  unfold DataFrame.getCol
  rw [show (DataFrame.mk ["v"] (l.map (fun v => [v]))).cols = ["v"] from rfl, h]
  show some ((l.map (fun v => [v])).filterMap (fun r => r.get? 0)) = some l
  rw [filterMap_get_zero]

theorem get_distinct_values_of_some (store : Store) (table column : String)
    (vals : List (Option String)) (h : store table column = some vals) :
    get_distinct_values store table column = "All" :: sqlDistinct vals := by
  unfold get_distinct_values read_distinct_df
  rw [h]
  simp only [run_query, getCol_v]

theorem all_mem_get_distinct_values (store : Store) (table column : String) :
    "All" ∈ get_distinct_values store table column := by
  unfold get_distinct_values
  cases (run_query (read_distinct_df store table column)).getCol "v" <;> simp

/-! Helper lemmas about placeholder counting. -/

theorem countQ_append (a b : String) : countQ (a ++ b) = countQ a + countQ b := by
  simp [countQ, String.data_append, List.count_append]

theorem digitChar_ne_qmark : ∀ m : Nat, Nat.digitChar m ≠ '?'
  | 0 => by decide
  | 1 => by decide
  | 2 => by decide
  | 3 => by decide
  | 4 => by decide
  | 5 => by decide
  | 6 => by decide
  | 7 => by decide
  | 8 => by decide
  | 9 => by decide
  | 10 => by decide
  | 11 => by decide
  | 12 => by decide
  | 13 => by decide
  | 14 => by decide
  | 15 => by decide
  | n + 16 => by
    unfold Nat.digitChar
    iterate 16 rw [if_neg (by omega)]
    decide

theorem mem_toDigitsCore (b : Nat) : ∀ (fuel n : Nat) (ds : List Char) (c : Char),
    c ∈ Nat.toDigitsCore b fuel n ds → c ∈ ds ∨ ∃ m, c = Nat.digitChar m := by
  intro fuel
  induction fuel with
  | zero =>
    intro n ds c h
    exact Or.inl (by simpa [Nat.toDigitsCore] using h)
  | succ f ih =>
    intro n ds c h
    simp only [Nat.toDigitsCore] at h
    by_cases h0 : n / b = 0
    · rw [if_pos h0] at h
      rcases List.mem_cons.mp h with h | h
      · exact Or.inr ⟨n % b, h⟩
      · exact Or.inl h
    · rw [if_neg h0] at h
      rcases ih (n / b) (Nat.digitChar (n % b) :: ds) c h with h | h
      · rcases List.mem_cons.mp h with h | h
        · exact Or.inr ⟨n % b, h⟩
        · exact Or.inl h
      · exact Or.inr h

theorem countQ_repr (n : Nat) : countQ (Nat.repr n) = 0 := by
  refine List.count_eq_zero.mpr ?_
  intro hmem
  have h : ('?' : Char) ∈ Nat.toDigits 10 n := hmem
  rcases mem_toDigitsCore 10 (n + 1) n [] '?' h with h | ⟨m, hm⟩
  · cases h
  · exact digitChar_ne_qmark m hm.symm

/-! Case equations for the per-report clause and parameter builders. -/

theorem query1_where_eq (c t : String) :
    query1_where c t =
      if c = "All" then (if t = "All" then "" else " WHERE Type = ?")
      else (if t = "All" then " WHERE City = ?" else " WHERE City = ? AND Type = ?") := by
  by_cases hc : c = "All" <;> by_cases ht : t = "All" <;>
    simp [query1_where, add_where, hc, ht] <;> rfl

theorem query1_params_eq (c t : String) :
    query1_params c t =
      if c = "All" then (if t = "All" then [] else [t])
      else (if t = "All" then [c] else [c, t]) := by
  by_cases hc : c = "All" <;> by_cases ht : t = "All" <;>
    simp [query1_params, active_params, hc, ht]

theorem query2_where_eq (c : String) :
    query2_where c = if c = "All" then "" else " WHERE City = ?" := by
  by_cases hc : c = "All" <;> simp [query2_where, add_where, hc] <;> rfl

theorem query2_params_eq (c : String) :
    query2_params c = if c = "All" then [] else [c] := by
  by_cases hc : c = "All" <;> simp [query2_params, active_params, hc]

theorem query7_where_eq (c m : String) :
    query7_where c m =
      if c = "All" then (if m = "All" then "" else " WHERE Meal_Type = ?")
      else (if m = "All" then " WHERE Location = ?"
        else " WHERE Location = ? AND Meal_Type = ?") := by
  by_cases hc : c = "All" <;> by_cases hm : m = "All" <;>
    simp [query7_where, add_where, hc, hm] <;> rfl

theorem query7_params_eq (c m : String) :
    query7_params c m =
      if c = "All" then (if m = "All" then [] else [m])
      else (if m = "All" then [c] else [c, m]) := by
  by_cases hc : c = "All" <;> by_cases hm : m = "All" <;>
    simp [query7_params, active_params, hc, hm]

theorem query10_where_eq (s : String) :
    query10_where s = if s = "All" then "" else " WHERE Status = ?" := by
  by_cases hs : s = "All" <;> simp [query10_where, add_where, hs] <;> rfl

theorem query10_params_eq (s : String) :
    query10_params s = if s = "All" then [] else [s] := by
  by_cases hs : s = "All" <;> simp [query10_params, active_params, hs]

theorem query12_where_eq (m : String) :
    query12_where m = if m = "All" then "" else " WHERE f.Meal_Type = ?" := by
  by_cases hm : m = "All" <;> simp [query12_where, add_where, hm] <;> rfl

theorem query12_params_eq (m : String) :
    query12_params m = if m = "All" then [] else [m] := by
  by_cases hm : m = "All" <;> simp [query12_params, active_params, hm]

theorem query14_where_eq (c : String) :
    query14_where c = if c = "All" then "" else " WHERE f.Location = ?" := by
  by_cases hc : c = "All" <;> simp [query14_where, add_where, hc] <;> rfl

theorem query14_params_eq (c : String) :
    query14_params c = if c = "All" then [] else [c] := by
  by_cases hc : c = "All" <;> simp [query14_params, active_params, hc]

theorem query14_where_clause_eq (c : String) :
    query14_where_clause c =
      if c = "All" then "WHERE c.Status = \x27Completed\x27"
      else "WHERE c.Status = \x27Completed\x27 AND f.Location = ?" := by
  by_cases hc : c = "All" <;>
    simp [query14_where_clause, query14_where_eq, hc] <;> rfl

/-! The claims. -/

/-- C1: when every filter selection equals "All", `add_where` over each
report's condition list produces the empty string and the parameter tuple is
empty, for every report that takes filters (queries 1, 2, 7, 10, 12, 14). -/
theorem C1_all_sentinels_empty :
    query1_where "All" "All" = "" ∧ query1_params "All" "All" = [] ∧
    query2_where "All" = "" ∧ query2_params "All" = [] ∧
    query7_where "All" "All" = "" ∧ query7_params "All" "All" = [] ∧
    query10_where "All" = "" ∧ query10_params "All" = [] ∧
    query12_where "All" = "" ∧ query12_params "All" = [] ∧
    query14_where "All" = "" ∧ query14_params "All" = [] := by
  decide

/-- C2: with both the city and provider-type filters active, query 1's
composed fragment lists the City condition before the Type condition and its
parameters are (city, type) in that order; and in general (shown for the
two-condition reports, queries 1 and 7) the parameter tuple is exactly the
ordered values of the surviving conditions, aligned with the surviving
fragments. -/
theorem C2_positional_binding :
    ∀ c t : String, c ≠ "All" → t ≠ "All" →
      (query1_where c t = " WHERE City = ? AND Type = ?" ∧
        query1_params c t = [c, t]) ∧
      (∀ c2 t2 : String,
        query1_params c2 t2 = (surviving (conds_query1 c2 t2)).map Prod.snd ∧
        query1_where c2 t2 =
          add_where ((surviving (conds_query1 c2 t2)).map (fun p => some p.1)) ∧
        query7_params c2 t2 = (surviving (conds_query7 c2 t2)).map Prod.snd ∧
        query7_where c2 t2 =
          add_where ((surviving (conds_query7 c2 t2)).map (fun p => some p.1))) := by
  intro c t hc ht
  refine ⟨⟨?_, ?_⟩, ?_⟩
  · rw [query1_where_eq, if_neg hc, if_neg ht]
  · rw [query1_params_eq, if_neg hc, if_neg ht]
  · intro c2 t2
    by_cases h1 : c2 = "All" <;> by_cases h2 : t2 = "All" <;>
      refine ⟨?_, ?_, ?_, ?_⟩ <;>
      simp [query1_params_eq, query1_where_eq, query7_params_eq, query7_where_eq,
        surviving, conds_query1, conds_query7, h1, h2] <;>
      rfl

/-- C2 witness at city "Austin" and provider type "Shelter". -/
theorem C2_witness :
    query1_where "Austin" "Shelter" = " WHERE City = ? AND Type = ?" ∧
    query1_params "Austin" "Shelter" = ["Austin", "Shelter"] :=
  (C2_positional_binding "Austin" "Shelter" (by decide) (by decide)).1

/-- C3: the City/Location option list is the deduplicated union, sorted
strictly ascending, of the "All" sentinel and the distinct provider cities
and listing locations; on the spec's example store the list without the
sentinel is ["Austin", "Boise", "Reno"]. -/
theorem C3_city_location_union :
    (∀ (store : Store) (cities locs : List (Option String)),
      store "providers" "City" = some cities →
      store "food_listings" "Location" = some locs →
      List.Sorted strLt (city_options store) ∧
      (∀ x : String, x ∈ city_options store ↔
        x = "All" ∨ x ∈ cities.filterMap id ∨ x ∈ locs.filterMap id)) ∧
    (city_options exampleStore).filter (fun s => s != "All") =
      ["Austin", "Boise", "Reno"] := by
  constructor
  · intro store cities locs h1 h2
    constructor
    · unfold city_options
      exact sorted_sortStr_dedup _
    · intro x
      unfold city_options
      rw [mem_sortStr, List.mem_dedup, List.mem_append,
        get_distinct_values_of_some store _ _ cities h1,
        get_distinct_values_of_some store _ _ locs h2]
      simp only [List.mem_cons, sqlDistinct, mem_sortStr, List.mem_dedup]
      tauto
  · decide

/-- C3 witness on the example store. -/
theorem C3_witness :
    List.Sorted strLt (city_options exampleStore) ∧
    ("Boise" ∈ city_options exampleStore ↔
      "Boise" = "All" ∨
      "Boise" ∈ ([some "Austin", some "Reno"] : List (Option String)).filterMap id ∨
      "Boise" ∈ ([some "Reno", some "Boise"] : List (Option String)).filterMap id) :=
  ⟨(C3_city_location_union.1 exampleStore [some "Austin", some "Reno"]
      [some "Reno", some "Boise"] rfl rfl).1,
    (C3_city_location_union.1 exampleStore [some "Austin", some "Reno"]
      [some "Reno", some "Boise"] rfl rfl).2 "Boise"⟩

/-- C4 counterexample: on a store whose one provider city is "Aberdeen"
(which sorts before "All"), the City/Location option list does not start
with the "All" sentinel. -/
theorem C4_counterexample_city_head :
    (city_options aberdeenStore).head? ≠ some "All" := by decide

/-- C4 amended: each per-column dimension's option list always starts with
the literal "All"; for the combined City/Location dimension "All" is always
a member of the option list, but the re-sort may place values before it. -/
theorem C4_amended_sentinel :
    (∀ (store : Store) (table column : String),
      (get_distinct_values store table column).head? = some "All") ∧
    (∀ store : Store, "All" ∈ city_options store) := by
  constructor
  · intro store table column
    unfold get_distinct_values
    cases (run_query (read_distinct_df store table column)).getCol "v" <;> rfl
  · intro store
    unfold city_options
    rw [mem_sortStr, List.mem_dedup, List.mem_append]
    exact Or.inl (all_mem_get_distinct_values store _ _)

/-- C5: the denominator of the percentage-by-status report is `max(total,1)`:
positive in every case, equal to the filtered claim count when that count is
positive, and 1 when the count is zero; a failed total query (empty frame)
yields count 0 and hence denominator 1. -/
theorem C5_denominator_positive :
    ∀ total_df : Option Nat,
      0 < query10_denominator total_df ∧
      query10_denominator total_df =
        (if query10_total_value total_df = 0 then 1
          else query10_total_value total_df) ∧
      query10_total_value none = 0 := by
  intro df
  refine ⟨Nat.lt_of_lt_of_le Nat.zero_lt_one (Nat.le_max_right _ _), ?_, rfl⟩
  by_cases hc : query10_total_value df = 0
  · rw [if_pos hc]
    unfold query10_denominator
    rw [hc]
    decide
  · rw [if_neg hc]
    unfold query10_denominator
    omega

/-- C6: query 14 joins its hardcoded completed-status predicate with the
optional composed city condition by stripping the composed fragment's
leading " WHERE " and inserting "AND"; with the city filter at "All" the
clause is the hardcoded predicate alone, so no clause ever carries two WHERE
keywords. -/
theorem C6_query14_combined_clause :
    ∀ c : String,
      (c ≠ "All" →
        query14_where_clause c =
          "WHERE c.Status = \x27Completed\x27 AND f.Location = ?") ∧
      (c = "All" →
        query14_where_clause c = "WHERE c.Status = \x27Completed\x27") := by
  intro c
  constructor
  · intro hc
    rw [query14_where_clause_eq, if_neg hc]
  · intro hc
    rw [query14_where_clause_eq, if_pos hc]

/-- C6 witness at city "Austin" and at "All". -/
theorem C6_witness :
    query14_where_clause "Austin" =
      "WHERE c.Status = \x27Completed\x27 AND f.Location = ?" ∧
    query14_where_clause "All" = "WHERE c.Status = \x27Completed\x27" :=
  ⟨(C6_query14_combined_clause "Austin").1 (by decide),
    (C6_query14_combined_clause "All").2 rfl⟩

/-- C7: `run_query` never raises: on success it returns the store's result
frame unchanged, and on any failure (for instance a distinct-value query on
a missing table or column) it returns the empty frame with zero rows and no
columns. -/
theorem C7_run_query_fail_soft :
    ∀ outcome : Except String DataFrame,
      (∀ df : DataFrame, outcome = Except.ok df → run_query outcome = df) ∧
      (∀ e : String, outcome = Except.error e → run_query outcome = emptyDF) ∧
      (∀ (store : Store) (table column : String), store table column = none →
        run_query (read_distinct_df store table column) = emptyDF) := by
  intro o
  refine ⟨?_, ?_, ?_⟩
  · intro df h
    rw [h]
    rfl
  · intro e h
    rw [h]
    rfl
  · intro store table column h
    unfold read_distinct_df
    rw [h]
    rfl

/-- C7 witness: a successful frame, a failing execution and a failing
distinct query on an absent column. -/
theorem C7_witness :
    run_query (Except.ok (DataFrame.mk ["v"] [["x"]])) =
      DataFrame.mk ["v"] [["x"]] ∧
    run_query (Except.error "boom") = emptyDF ∧
    run_query (read_distinct_df failStore "food_listings" "Nope") = emptyDF :=
  ⟨(C7_run_query_fail_soft _).1 _ rfl,
    (C7_run_query_fail_soft _).2.1 "boom" rfl,
    (C7_run_query_fail_soft (Except.error "x")).2.2 failStore "food_listings" "Nope" rfl⟩

/-- C8: with city "Austin" and provider type "All", query 1's clause is
" WHERE City = ?" with parameters ("Austin",), and its result rows are in
descending provider-count order with at most 10 rows, over any providers
table. -/
theorem C8_top_cities_scenario :
    ∀ providers : List ProviderRow,
      query1_where "Austin" "All" = " WHERE City = ?" ∧
      query1_params "Austin" "All" = ["Austin"] ∧
      List.Sorted countGE (query1_rows providers "Austin" "All") ∧
      (query1_rows providers "Austin" "All").length ≤ 10 := by
  intro ps
  refine ⟨by decide, by decide, ?_, ?_⟩
  · unfold query1_rows
    exact List.Pairwise.sublist (List.take_sublist 10 _)
      (List.sorted_insertionSort countGE _)
  · unfold query1_rows
    exact List.length_take_le 10 _

/-- C9: when the distinct-value resolution fails (absent table or column),
`get_distinct_values` returns exactly ["All"] and propagates nothing. -/
theorem C9_resolver_fail_soft :
    ∀ (store : Store) (table column : String), store table column = none →
      get_distinct_values store table column = ["All"] := by
  intro store table column h
  unfold get_distinct_values read_distinct_df
  rw [h]
  rfl

/-- C9 witness on the empty store. -/
theorem C9_witness : get_distinct_values failStore "providers" "City" = ["All"] :=
  C9_resolver_fail_soft failStore "providers" "City" rfl

/-- C10: for every report and every filter selection, the number of `?`
placeholders in the SQL string handed to `run_query` equals the length of
the parameter tuple handed with it (filter-free reports carry none). -/
theorem C10_placeholder_param_arity :
    ∀ (c t m s : String) (total : Nat),
      countQ (query1_sql c t) = (query1_params c t).length ∧
      countQ (query2_sql c) = (query2_params c).length ∧
      countQ (query7_sql c m) = (query7_params c m).length ∧
      countQ (query10_total_sql s) = (query10_params s).length ∧
      countQ (query10_sql s total) = (query10_params s).length ∧
      countQ (query12_sql m) = (query12_params m).length ∧
      countQ (query14_sql c) = (query14_params c).length ∧
      countQ query4_sql = 0 ∧ countQ query8_sql = 0 ∧ countQ query13_sql = 0 := by
  intro c t m s total
  refine ⟨?_, ?_, ?_, ?_, ?_, ?_, ?_, by decide, by decide, by decide⟩
  · simp only [query1_sql, countQ_append, query1_where_eq, query1_params_eq]
    split_ifs <;> rfl
  · simp only [query2_sql, countQ_append, query2_where_eq, query2_params_eq]
    split_ifs <;> rfl
  · simp only [query7_sql, countQ_append, query7_where_eq, query7_params_eq]
    split_ifs <;> rfl
  · simp only [query10_total_sql, countQ_append, query10_where_eq, query10_params_eq]
    split_ifs <;> rfl
  · simp only [query10_sql, countQ_append, countQ_repr, query10_where_eq,
      query10_params_eq]
    split_ifs <;> rfl
  · simp only [query12_sql, countQ_append, query12_where_eq, query12_params_eq]
    split_ifs <;> rfl
  · simp only [query14_sql, countQ_append, query14_where_clause_eq, query14_params_eq]
    split_ifs <;> rfl

end FoodWaste
